import Mathlib

/-!
Verification of the DynamoDB schema-design benchmark repository
(`dynamodb-test-cases`).

The repository compares a multi-table ("relational") and a single-table
DynamoDB data model.  Its operations build request parameter objects
(partition/sort keys, index names, key-condition expressions), send them
through the AWS SDK client, and time the round trip.

This development shallowly embeds the parts of the code the claims are
about:

* items and query requests are records mirroring the TypeScript shapes;
* the external DynamoDB store is modelled as a list of items, and a query
  is interpreted by filtering with its literal key-condition expression
  (the store itself is an external collaborator; only the request
  construction is the repository's code);
* `measureOperation`, `batchWriteWithChunking` and the parallel shard
  fan-out are translated function by function, with the nondeterministic
  ingredients (`Date.now()` durations, `Math.random()` draws, responses of
  the remote store) supplied as explicit oracle parameters;
* the data generator is translated with its `Math.random()`-derived
  timestamps and content indices as oracle parameters as well.

JavaScript numbers that only ever hold capacity units are modelled as `ℚ`,
counters as `ℕ`, and strings as Lean `String`.
-/

/-- An item stored in (or written to) a DynamoDB table.  `PK`/`SK` are the
generic partition and sort key attributes of the single-table layout,
`entityType` is the discriminator tag (absent on items that do not carry
it), `GSI1PK`/`GSI1SK` the overloaded secondary-index attributes, and
`attrs` collects the remaining attributes as name/value pairs. -/
structure Item where
  PK : String
  SK : String
  entityType : Option String := none
  GSI1PK : Option String := none
  GSI1SK : Option String := none
  attrs : List (String × String) := []
deriving DecidableEq

/-- A `QueryCommand` input as built by the DAOs: table name, optional
index name, the literal key-condition expression string and the
`ExpressionAttributeValues` placeholder/value pairs. -/
structure QueryRequest where
  TableName : String
  IndexName : Option String := none
  KeyConditionExpression : String
  ExpressionAttributeValues : List (String × String)
deriving DecidableEq

/-- Look up a placeholder in `ExpressionAttributeValues`. -/
def lookupVal (vals : List (String × String)) (k : String) : Option String :=
  (vals.find? (fun p => p.1 == k)).map (fun p => p.2)

/-- DynamoDB `begins_with`: the first string is a prefix of the second. -/
def strBeginsWith (p s : String) : Bool :=
  p.data.isPrefixOf s.data

/-- Interpretation of the key-condition expressions that occur literally in
the repository's `QueryCommand`s, as a predicate on a stored item.  This
models the external store's query semantics (spec §6: range/prefix query
by partition+sort key or by secondary index); an expression not used by
the code matches nothing. -/
def evalKeyCond (req : QueryRequest) (it : Item) : Bool :=
  let vals := req.ExpressionAttributeValues
  if req.KeyConditionExpression == "PK = :pk AND begins_with(SK, :sk)" then
    match lookupVal vals ":pk", lookupVal vals ":sk" with
    | some pk, some sk => it.PK == pk && strBeginsWith sk it.SK
    | _, _ => false
  else if req.KeyConditionExpression == "PK = :pk AND begins_with(SK, :skPrefix)" then
    match lookupVal vals ":pk", lookupVal vals ":skPrefix" with
    | some pk, some sk => it.PK == pk && strBeginsWith sk it.SK
    | _, _ => false
  else if req.KeyConditionExpression == "PK = :pk" then
    match lookupVal vals ":pk" with
    | some pk => it.PK == pk
    | none => false
  else if req.KeyConditionExpression == "entityType = :entityType" then
    match lookupVal vals ":entityType" with
    | some et => it.entityType == some et
    | none => false
  else if req.KeyConditionExpression == "GSI1PK = :pk" then
    match lookupVal vals ":pk" with
    | some v => it.GSI1PK == some v
    | none => false
  else false

/-- Running a query request against a table returns the stored items
matching its key condition. -/
def runQuery (req : QueryRequest) (table : List Item) : List Item :=
  table.filter (evalKeyCond req)

/- ----------------------------------------------------------------------
Request constructors, translated from the DAO methods.
---------------------------------------------------------------------- -/

/-- `SingleTableDAO.getUserOrders` (dynamo-tests): query on the main table
with `PK = USER#<userId>` and `begins_with(SK, ORDER#)`. -/
def getUserOrdersRequest (tableName userId : String) : QueryRequest :=
  { TableName := tableName
    IndexName := none
    KeyConditionExpression := "PK = :pk AND begins_with(SK, :sk)"
    ExpressionAttributeValues := [(":pk", "USER#" ++ userId), (":sk", "ORDER#")] }

/-- `SingleTableDAO.getAllUsers` (dynamo-tests): query on the
`EntityTypeIndex` GSI with `entityType = USER`. -/
def getAllUsersRequest (tableName : String) : QueryRequest :=
  { TableName := tableName
    IndexName := some "EntityTypeIndex"
    KeyConditionExpression := "entityType = :entityType"
    ExpressionAttributeValues := [(":entityType", "USER")] }

/-- `SingleTableDAO.getAllPosts` (dynamo-queries flavour): query on the
`EntityTypeIndex` GSI with `entityType = POST` (`EntityType.POST`). -/
def getAllPostsRequest (tableName : String) : QueryRequest :=
  { TableName := tableName
    IndexName := some "EntityTypeIndex"
    KeyConditionExpression := "entityType = :entityType"
    ExpressionAttributeValues := [(":entityType", "POST")] }

/-- `SingleTableDAO.getAllOrders` (dynamo-tests): despite its name it
queries the main table for the partition `USER#user-00001` with sort-key
prefix `ORDER#` ("We'll query for a specific user's orders as an
example"). -/
def getAllOrdersRequest (tableName : String) : QueryRequest :=
  { TableName := tableName
    IndexName := none
    KeyConditionExpression := "PK = :pk AND begins_with(SK, :sk)"
    ExpressionAttributeValues := [(":pk", "USER#user-00001"), (":sk", "ORDER#")] }

/-- `SingleTableDAO.getUserScreenData` (dynamo-tests flavour, the first
copy): a single main-table query with `PK = USER#<userId>`. -/
def getUserScreenDataRequest (tableName userId : String) : QueryRequest :=
  { TableName := tableName
    IndexName := none
    KeyConditionExpression := "PK = :pk"
    ExpressionAttributeValues := [(":pk", "USER#" ++ userId)] }

/-- The list of store requests issued by one `getUserScreenData` call
(dynamo-tests flavour): exactly the one main-table query. -/
def getUserScreenDataRequests (tableName userId : String) : List QueryRequest :=
  [getUserScreenDataRequest tableName userId]

/-- `SingleTableDAO.getUserScreenData` (dynamo-queries flavour, the second
copy): a single main-table query whose `:pk` value is the raw `userId`,
returned without client-side partitioning. -/
def getUserScreenDataRequestQueries (tableName userId : String) : QueryRequest :=
  { TableName := tableName
    IndexName := none
    KeyConditionExpression := "PK = :pk"
    ExpressionAttributeValues := [(":pk", userId)] }

/-- The list of store requests issued by one `getUserScreenData` call
(dynamo-queries flavour): exactly the one main-table query. -/
def getUserScreenDataRequestsQueries (tableName userId : String) : List QueryRequest :=
  [getUserScreenDataRequestQueries tableName userId]

/-- The client-side partitioning loop of `getUserScreenData`
(dynamo-tests flavour): one pass over the returned items, dispatching on
the `entityType` tag into posts, comments, followers and likes. -/
structure ScreenData where
  posts : List Item
  comments : List Item
  followers : List Item
  likes : List Item
deriving DecidableEq

/-- One step of the `switch (item.entityType)` dispatch. -/
def screenDataStep (acc : ScreenData) (it : Item) : ScreenData :=
  if it.entityType == some "POST" then { acc with posts := acc.posts ++ [it] }
  else if it.entityType == some "COMMENT" then { acc with comments := acc.comments ++ [it] }
  else if it.entityType == some "FOLLOWER" then { acc with followers := acc.followers ++ [it] }
  else if it.entityType == some "LIKE" then { acc with likes := acc.likes ++ [it] }
  else acc

/-- The `for (const item of result.Items)` loop with the entity-type
switch, starting from four empty arrays. -/
def partitionScreenItems (items : List Item) : ScreenData :=
  items.foldl screenDataStep ⟨[], [], [], []⟩

/- ----------------------------------------------------------------------
measureOperation and the result records (dynamo-queries BaseDAO,
src/unnamed/part_011, and dynamo-tests BaseDAO, src/unnamed/part_003).
---------------------------------------------------------------------- -/

/-- The `ConsumedCapacity` object of a store response.  All fields are
optional, as in the SDK's response shape; capacity units are modelled as
rationals. -/
structure Capacity where
  CapacityUnits : Option ℚ := none
  ReadCapacityUnits : Option ℚ := none
  WriteCapacityUnits : Option ℚ := none
  TableName : Option String := none
deriving DecidableEq

/-- An `UnprocessedItems` map of a batch-write response: table names to
the write requests the store did not process. -/
abbrev UnprocessedMap := List (String × List Item)

/-- The dynamic result object `measureOperation` inspects.  A `none`
field models an absent (or `undefined`) property, `some` a present one;
`UnprocessedItems` maps table names to the write requests the store did
not process. -/
structure OpResult where
  Items : Option (List Item) := none
  Item : Option Item := none
  Count : Option Nat := none
  ScannedCount : Option Nat := none
  ConsumedCapacity : Option Capacity := none
  FailedCount : Option Nat := none
  UnprocessedItems : Option UnprocessedMap := none
deriving DecidableEq

/-- The `TestResult` measurement record of the dynamo-queries flavour:
operation name, design variant, duration, the extracted read capacity,
the item count, the success flag and the error message of a failed
measurement. -/
structure TestResult where
  operation : String
  design : String
  duration : Nat
  consumedCapacity : Option ℚ := none
  itemCount : Nat
  success : Bool
  error : Option String := none
deriving DecidableEq

/-- `BaseDAO.measureOperation` (dynamo-queries, part_011).  The wrapped
operation either produced a result object or threw; the measured duration
is an oracle standing for `Date.now()` differences.  On success the item
count is re-derived from the result (`Items` length, else a present
`Item`, else `Count`, else the requested count); on a thrown error the
call returns a failed measurement with the error's message instead of
propagating the exception. -/
def measureOperation (op : Except String OpResult) (operationName design : String)
    (itemCount : Nat) (duration : Nat) : TestResult :=
  match op with
  | .ok result =>
    let consumedCapacity : Option ℚ :=
      match result.ConsumedCapacity with
      | some c => some (c.CapacityUnits.getD 0)
      | none => none
    let actualItemCount : Nat :=
      match result.Items with
      | some items => items.length
      | none =>
        match result.Item with
        | some _ => 1
        | none =>
          match result.Count with
          | some c => c
          | none => itemCount
    { operation := operationName
      design := design
      duration := duration
      consumedCapacity := consumedCapacity
      itemCount := actualItemCount
      success := true
      error := none }
  | .error msg =>
    { operation := operationName
      design := design
      duration := duration
      consumedCapacity := none
      itemCount := 0
      success := false
      error := some msg }

/-- The `TestResult` record of the dynamo-tests flavour (part_003): it
additionally carries a `recordCount` re-derived from the result shape,
and on failure keeps the requested `itemCount`. -/
structure TestResultT where
  testName : String
  design : String
  operation : String
  duration : Nat
  itemCount : Nat
  recordCount : Nat
  success : Bool
  error : Option String := none
deriving DecidableEq

/-- A result value of a dynamo-tests operation: either a single response
object or an array of responses (batched operations return arrays). -/
inductive OpValue where
  | obj (o : OpResult)
  | arr (rs : List OpResult)
deriving DecidableEq

/-- The record-count extraction of the dynamo-tests `measureOperation`:
`Items` length, else a numeric `Count`, else the length of an array
result, else a present `Item`, else the requested count when
`UnprocessedItems` or `ConsumedCapacity` is present, else 1. -/
def recordCountOf (v : OpValue) (itemCount : Nat) : Nat :=
  match v with
  | .obj o =>
    match o.Items with
    | some items => items.length
    | none =>
      match o.Count with
      | some c => c
      | none =>
        match o.Item with
        | some _ => 1
        | none =>
          if o.UnprocessedItems.isSome || o.ConsumedCapacity.isSome then itemCount
          else 1
  | .arr rs => rs.length

/-- `BaseDAO.measureOperation` (dynamo-tests, part_003).  On a thrown
error it returns a failed measurement carrying the error message and a
zero record count; nothing is rethrown. -/
def measureOperationT (op : Except String OpValue) (testName design operationType : String)
    (itemCount : Nat) (duration : Nat) : TestResultT :=
  match op with
  | .ok result =>
    { testName := testName
      design := design
      operation := operationType
      duration := duration
      itemCount := itemCount
      recordCount := recordCountOf result itemCount
      success := true
      error := none }
  | .error msg =>
    { testName := testName
      design := design
      operation := operationType
      duration := duration
      itemCount := itemCount
      recordCount := 0
      success := false
      error := some msg }

/- ----------------------------------------------------------------------
batchWriteWithChunking (dynamo-queries BaseDAO, part_011).
---------------------------------------------------------------------- -/

/-- Chunking of the item list into batches of 25 (structural recursion on
a fuel bound, so that the kernel can evaluate it). -/
def chunksOf25Aux : Nat → List Item → List (List Item)
  | 0, _ => []
  | _ + 1, [] => []
  | fuel + 1, a :: l => ((a :: l).take 25) :: chunksOf25Aux fuel ((a :: l).drop 25)

/-- Chunking of the item list into batches of 25, as done by the
`for (let i = 0; i < items.length; i += BATCH_SIZE)` loop. -/
def chunksOf25 (items : List Item) : List (List Item) :=
  chunksOf25Aux items.length items

/-- The running totals of the chunk loop. -/
structure BatchTotals where
  totalCapacity : ℚ
  failedCount : Nat
  successfulCount : Nat
deriving DecidableEq

/-- One iteration of the chunk loop: a thrown batch call marks the whole
chunk failed; a response with a non-empty `UnprocessedItems` map also
marks the whole chunk failed, otherwise the whole chunk counts as
successful; consumed capacity accumulates on non-thrown calls. -/
def batchChunkStep (acc : BatchTotals) (batch : List Item)
    (res : Except String OpResult) : BatchTotals :=
  match res with
  | .ok result =>
    let acc :=
      if (result.UnprocessedItems.getD []).length > 0 then
        { acc with failedCount := acc.failedCount + batch.length }
      else
        { acc with successfulCount := acc.successfulCount + batch.length }
    { acc with
      totalCapacity := acc.totalCapacity +
        (match result.ConsumedCapacity with
         | some c => c.CapacityUnits.getD 0
         | none => 0) }
  | .error _ => { acc with failedCount := acc.failedCount + batch.length }

/-- The totals after processing every chunk, with the store's response to
the i-th chunk supplied by the oracle `send`. -/
def batchWriteTotals (items : List Item) (send : Nat → Except String OpResult) :
    BatchTotals :=
  (chunksOf25 items).enum.foldl
    (fun acc p => batchChunkStep acc p.2 (send p.1))
    ⟨0, 0, 0⟩

/-- The result object the inner operation of `batchWriteWithChunking`
returns: the full input list as `Items`, the successful count as `Count`,
the accumulated capacity, and the failed count. -/
def batchWriteInnerResult (items : List Item) (send : Nat → Except String OpResult) :
    OpResult :=
  let totals := batchWriteTotals items send
  { Items := some items
    Count := some totals.successfulCount
    ConsumedCapacity := some { CapacityUnits := some totals.totalCapacity }
    FailedCount := some totals.failedCount }

/-- `BaseDAO.batchWriteWithChunking` (part_011): the chunk loop catches
every per-chunk error itself, so the wrapped operation always resolves,
and its result object is handed to `measureOperation` with the requested
count `items.length`. -/
def batchWriteWithChunking (items : List Item) (send : Nat → Except String OpResult)
    (operationName design : String) (duration : Nat) : TestResult :=
  measureOperation (.ok (batchWriteInnerResult items send))
    operationName design items.length duration

/- ----------------------------------------------------------------------
Decimal rendering of numbers (JavaScript `Number.prototype.toString` and
`String.prototype.padStart`), used for shard ids and generated entity
ids.
---------------------------------------------------------------------- -/

/-- The character of a decimal digit. -/
def digitChar (d : Nat) : Char :=
  if d = 0 then '0' else if d = 1 then '1' else if d = 2 then '2'
  else if d = 3 then '3' else if d = 4 then '4' else if d = 5 then '5'
  else if d = 6 then '6' else if d = 7 then '7' else if d = 8 then '8'
  else if d = 9 then '9' else '*'

/-- The decimal digit of a digit character (0 on anything else). -/
def charDigit (c : Char) : Nat :=
  if c = '0' then 0 else if c = '1' then 1 else if c = '2' then 2
  else if c = '3' then 3 else if c = '4' then 4 else if c = '5' then 5
  else if c = '6' then 6 else if c = '7' then 7 else if c = '8' then 8
  else if c = '9' then 9 else 0

/-- Big-endian decimal digit characters of a positive number, with fuel
for structural recursion. -/
def natCharsAux : Nat → Nat → List Char
  | 0, _ => []
  | _ + 1, 0 => []
  | fuel + 1, n + 1 => natCharsAux fuel ((n + 1) / 10) ++ [digitChar ((n + 1) % 10)]

/-- `n.toString()`: decimal digit characters of `n`. -/
def natChars (n : Nat) : List Char :=
  if n = 0 then ['0'] else natCharsAux n n

/-- `n.toString()` as a `String`. -/
def natToString (n : Nat) : String :=
  String.mk (natChars n)

/-- `s.padStart(len, c)`: pad on the left with `c` up to length `len`. -/
def padStart (s : String) (len : Nat) (c : Char) : String :=
  String.mk (List.replicate (len - s.data.length) c ++ s.data)

/-- Decode a digit-character list (the left inverse used to prove that
decimal rendering is injective). -/
def decodeChars (l : List Char) : Nat :=
  Nat.ofDigits 10 ((l.map charDigit).reverse)

/- ----------------------------------------------------------------------
getAllOrdersByDateRangeParallel (dynamo-queries SingleTableDAO,
src/unnamed/part_016), and the DynamoDB client configuration of the two
BaseDAO constructors.
---------------------------------------------------------------------- -/

/-- The `EntityType.ORDER` enum value of the dynamo-queries types. -/
def entityTypeORDER : String := "ORDER"

/-- The shard query of `getAllOrdersByDateRange(Parallel)`: an overloaded
`GSI1` query with `GSI1PK = ORDER#<shardId>` and a `createdAt` range. -/
def shardRequest (tableName startDate endDate shardId : String) : QueryRequest :=
  { TableName := tableName
    IndexName := some "GSI1"
    KeyConditionExpression := "GSI1PK = :entityType AND createdAt BETWEEN :startDate AND :endDate"
    ExpressionAttributeValues :=
      [(":entityType", entityTypeORDER ++ "#" ++ shardId),
       (":startDate", startDate),
       (":endDate", endDate)] }

/-- The 20 shard queries issued by `getAllOrdersByDateRangeParallel`
(`Array.from({length: 20}, (_, index) => ... (index + 1).toString())`). -/
def parallelShardRequests (tableName startDate endDate : String) : List QueryRequest :=
  (List.range 20).map (fun index => shardRequest tableName startDate endDate (natToString (index + 1)))

/-- The `ConsumedCapacity` accumulation step of the shard merge: shards
without a reported capacity are skipped, otherwise every capacity field
is added onto the running total (missing operands count as 0). -/
def shardCapacityStep (total : Capacity) (result : OpResult) : Capacity :=
  match result.ConsumedCapacity with
  | some c =>
    { TableName := c.TableName
      CapacityUnits := some (total.CapacityUnits.getD 0 + c.CapacityUnits.getD 0)
      ReadCapacityUnits := some (total.ReadCapacityUnits.getD 0 + c.ReadCapacityUnits.getD 0)
      WriteCapacityUnits := some (total.WriteCapacityUnits.getD 0 + c.WriteCapacityUnits.getD 0) }
  | none => total

/-- The merged result of the successful shard queries: `Items` is the
flat concatenation in shard order, `Count` and `ScannedCount` the sums
(missing counts as 0), and `ConsumedCapacity` the left fold of
`shardCapacityStep` starting from the empty object. -/
def combineShardResults (rs : List OpResult) : OpResult :=
  { Items := some (rs.foldr (fun r acc => r.Items.getD [] ++ acc) [])
    Count := some ((rs.map (fun r => r.Count.getD 0)).sum)
    ScannedCount := some ((rs.map (fun r => r.ScannedCount.getD 0)).sum)
    ConsumedCapacity := some (rs.foldl shardCapacityStep {}) }

/-- `Promise.all`: the fan-out resolves with the list of shard results,
or rejects with the first rejection. -/
def collectShardResults : List (Except String OpResult) → Except String (List OpResult)
  | [] => .ok []
  | .error e :: _ => .error e
  | .ok r :: rest => (collectShardResults rest).map (fun l => r :: l)

/-- `SingleTableDAO.getAllOrdersByDateRangeParallel` (part_016): issue the
20 shard queries, await them all, merge on success, and hand the outcome
to `measureOperation` with requested item count 20. -/
def getAllOrdersByDateRangeParallel (tableName startDate endDate : String)
    (send : QueryRequest → Except String OpResult) (duration : Nat) : TestResult :=
  let results := (parallelShardRequests tableName startDate endDate).map send
  let op := (collectShardResults results).map combineShardResults
  measureOperation op "GetAllOrdersByDateRangeParallel" "SingleTable" 20 duration

/-- The options object passed to the `DynamoDBClient` constructor by a
BaseDAO: the region and, when explicitly configured, `maxAttempts`. -/
structure DynamoDBClientConfig where
  region : String
  maxAttempts : Option Nat := none
deriving DecidableEq

/-- The client configuration built by the dynamo-tests `BaseDAO`
constructor (part_003): it sets `maxAttempts: 3` ("Add retry
configuration for better reliability"). -/
def dynamoTestsClientConfig (region : String) : DynamoDBClientConfig :=
  { region := region, maxAttempts := some 3 }

/-- The client configuration built by the dynamo-queries `BaseDAO`
constructor (part_011): only the region, no retry configuration. -/
def dynamoQueriesClientConfig (region : String) : DynamoDBClientConfig :=
  { region := region, maxAttempts := none }

/- ----------------------------------------------------------------------
Data generator (src/dynamo-queries/service/data-generator.ts, the
social-media flavour).  `Date.now() - Math.random() * year` timestamps
and `Math.random()` content picks are supplied as oracles: `ts i` is the
ISO string generated for the i-th entity of a collection, `pick i` the
random index into the content pool.
---------------------------------------------------------------------- -/

/-- A generated relational user record. -/
structure RelationalUser where
  userId : String
  id : String
  email : String
  username : String
  createdAt : String
deriving DecidableEq

/-- A generated relational post record. -/
structure RelationalPost where
  postId : String
  id : String
  userId : String
  content : String
  createdAt : String
deriving DecidableEq

/-- A generated relational comment record. -/
structure RelationalComment where
  commentId : String
  id : String
  userId : String
  postId : String
  postAuthorUserId : String
  content : String
  createdAt : String
deriving DecidableEq

/-- A generated relational like record. -/
structure RelationalLike where
  likeId : String
  id : String
  userId : String
  postId : String
  postAuthorUserId : String
  createdAt : String
deriving DecidableEq

/-- The static post content pool. -/
def POST_CONTENT : List String :=
  ["Just had an amazing day!",
   "Working on some exciting new features",
   "Coffee time ☕",
   "Learning new technologies",
   "Beautiful sunset today",
   "Productive coding session",
   "Great team meeting",
   "New project ideas",
   "Weekend plans",
   "Tech conference insights"]

/-- The static comment content pool. -/
def COMMENT_CONTENT : List String :=
  ["Great post!",
   "Thanks for sharing",
   "Interesting perspective",
   "Well said!",
   "I agree with this",
   "Food for thought",
   "Nice insights",
   "Keep it up!",
   "This is helpful",
   "Good point!"]

/-- The fallback for an out-of-range array access (the source indexes
`users[i % users.length]`, which is always in range when users exist). -/
def emptyUser : RelationalUser :=
  { userId := "", id := "", email := "", username := "", createdAt := "" }

/-- The fallback post for an out-of-range access. -/
def emptyPost : RelationalPost :=
  { postId := "", id := "", userId := "", content := "", createdAt := "" }

/-- `DataGenerator.generateRelationalUsers`: users `user-00001` … with the
index zero-padded to 5 digits by `padStart(5, '0')`. -/
def generateRelationalUsers (count : Nat) (ts : Nat → String) : List RelationalUser :=
  (List.range count).map (fun k =>
    let i := k + 1
    let userId := "user-" ++ padStart (natToString i) 5 '0'
    { userId := userId
      id := userId
      email := "user" ++ natToString i ++ "@example.com"
      username := "user" ++ natToString i
      createdAt := ts i })

/-- `DataGenerator.generateRelationalPosts`: post ids zero-padded to 8
digits, distributed over the users by `i % users.length`. -/
def generateRelationalPosts (count : Nat) (users : List RelationalUser)
    (ts : Nat → String) (pick : Nat → Nat) : List RelationalPost :=
  (List.range count).map (fun k =>
    let i := k + 1
    let userId := (users.getD (i % users.length) emptyUser).id
    let postId := "post-" ++ padStart (natToString i) 8 '0'
    { postId := postId
      id := postId
      userId := userId
      content := POST_CONTENT.getD (pick i) ""
      createdAt := ts i })

/-- `DataGenerator.generateRelationalComments`: comments distributed over
users and posts by `i % length`. -/
def generateRelationalComments (count : Nat) (users : List RelationalUser)
    (posts : List RelationalPost) (ts : Nat → String) (pick : Nat → Nat) :
    List RelationalComment :=
  (List.range count).map (fun k =>
    let i := k + 1
    let userId := (users.getD (i % users.length) emptyUser).id
    let post := posts.getD (i % posts.length) emptyPost
    let commentId := "comment-" ++ padStart (natToString i) 8 '0'
    { commentId := commentId
      id := commentId
      userId := userId
      postId := post.id
      postAuthorUserId := post.userId
      content := COMMENT_CONTENT.getD (pick i) ""
      createdAt := ts i })

/-- `DataGenerator.generateRelationalLikes`: likes distributed over users
and posts by `i % length`. -/
def generateRelationalLikes (count : Nat) (users : List RelationalUser)
    (posts : List RelationalPost) (ts : Nat → String) : List RelationalLike :=
  (List.range count).map (fun k =>
    let i := k + 1
    let userId := (users.getD (i % users.length) emptyUser).id
    let post := posts.getD (i % posts.length) emptyPost
    let likeId := "like-" ++ padStart (natToString i) 8 '0'
    { likeId := likeId
      id := likeId
      userId := userId
      postId := post.id
      postAuthorUserId := post.userId
      createdAt := ts i })

/-- `createdAt.split('T')[0]`: the characters before the first `T` (the
date part of an ISO timestamp). -/
def datePrefixOf (s : String) : String :=
  String.mk (s.data.takeWhile (fun c => c != 'T'))

/-- A generated single-table user item (`PK = SK = USER#<id>`,
`entityType = USER`). -/
structure SingleTableUser where
  PK : String
  SK : String
  entityType : String
  id : String
  username : String
  email : String
  createdAt : String
deriving DecidableEq

/-- A generated single-table post item (`PK = USER#<userId>`,
`SK = POST#<createdAt>`, overloaded GSI1 keys). -/
structure SingleTablePost where
  PK : String
  SK : String
  entityType : String
  id : String
  userId : String
  content : String
  createdAt : String
  datePrefix : String
  GSI1PK : String
  GSI1SK : String
deriving DecidableEq

/-- A generated single-table comment item (`PK = USER#<userId>`,
`SK = COMMENT#<createdAt>`). -/
structure SingleTableComment where
  PK : String
  SK : String
  entityType : String
  id : String
  userId : String
  postId : String
  content : String
  createdAt : String
  datePrefix : String
  GSI1PK : String
  GSI1SK : String
deriving DecidableEq

/-- A generated single-table like item (`PK = USER#<userId>`,
`SK = LIKE#<createdAt>`). -/
structure SingleTableLike where
  PK : String
  SK : String
  entityType : String
  id : String
  userId : String
  postId : String
  createdAt : String
  datePrefix : String
deriving DecidableEq

/-- `DataGenerator.generateSingleTableUsers`: the single-table projection
of the relational users. -/
def generateSingleTableUsers (users : List RelationalUser) : List SingleTableUser :=
  users.map (fun user =>
    { PK := "USER" ++ "#" ++ user.id
      SK := "USER" ++ "#" ++ user.id
      entityType := "USER"
      id := user.id
      username := user.username
      email := user.email
      createdAt := user.createdAt })

/-- `DataGenerator.generateSingleTablePosts`: the user is the partition
key, the static identifier plus creation date the sort key. -/
def generateSingleTablePosts (posts : List RelationalPost) : List SingleTablePost :=
  posts.map (fun post =>
    { PK := "USER" ++ "#" ++ post.userId
      SK := "POST" ++ "#" ++ post.createdAt
      entityType := "POST"
      id := post.id
      userId := post.userId
      content := post.content
      createdAt := post.createdAt
      datePrefix := datePrefixOf post.createdAt
      GSI1PK := "POST"
      GSI1SK := post.createdAt })

/-- `DataGenerator.generateSingleTableComments`. -/
def generateSingleTableComments (comments : List RelationalComment) :
    List SingleTableComment :=
  comments.map (fun comment =>
    { PK := "USER" ++ "#" ++ comment.userId
      SK := "COMMENT" ++ "#" ++ comment.createdAt
      entityType := "COMMENT"
      id := comment.id
      userId := comment.userId
      postId := comment.postId
      content := comment.content
      createdAt := comment.createdAt
      datePrefix := datePrefixOf comment.createdAt
      GSI1PK := "COMMENT"
      GSI1SK := comment.createdAt })

/-- `DataGenerator.generateSingleTableLikes`. -/
def generateSingleTableLikes (likes : List RelationalLike) : List SingleTableLike :=
  likes.map (fun like =>
    { PK := "USER" ++ "#" ++ like.userId
      SK := "LIKE" ++ "#" ++ like.createdAt
      entityType := "LIKE"
      id := like.id
      userId := like.userId
      postId := like.postId
      createdAt := like.createdAt
      datePrefix := datePrefixOf like.createdAt })

/-- A generated relational follower record (the single-table projection
consumes these; the retry loop that draws the random follower/following
user pairs only determines the list's contents). -/
structure RelationalFollower where
  followId : String
  id : String
  followerId : String
  followingId : String
  createdAt : String
deriving DecidableEq

/-- A generated single-table follower item (`PK = USER#<followingId>`,
`SK = FOLLOWER#<createdAt>`). -/
structure SingleTableFollower where
  PK : String
  SK : String
  entityType : String
  id : String
  followerId : String
  followingId : String
  createdAt : String
  datePrefix : String
deriving DecidableEq

/-- `DataGenerator.generateSingleTableFollowers`: the followed user is
the partition key, the static identifier plus creation date the sort
key. -/
def generateSingleTableFollowers (followers : List RelationalFollower) :
    List SingleTableFollower :=
  followers.map (fun follower =>
    { PK := "USER" ++ "#" ++ follower.followingId
      SK := "FOLLOWER" ++ "#" ++ follower.createdAt
      entityType := "FOLLOWER"
      id := follower.id
      followerId := follower.followerId
      followingId := follower.followingId
      createdAt := follower.createdAt
      datePrefix := datePrefixOf follower.createdAt })

/-- The (partition key, sort key) pair of a generated item, for the
uniqueness invariant. -/
def userKey (u : SingleTableUser) : String × String := (u.PK, u.SK)

/-- The (partition key, sort key) pair of a generated post item. -/
def postKey (p : SingleTablePost) : String × String := (p.PK, p.SK)

/-- The (partition key, sort key) pair of a generated comment item. -/
def commentKey (c : SingleTableComment) : String × String := (c.PK, c.SK)

/-- The (partition key, sort key) pair of a generated like item. -/
def likeKey (l : SingleTableLike) : String × String := (l.PK, l.SK)

/-- The (partition key, sort key) pair of a generated follower item. -/
def followerKey (f : SingleTableFollower) : String × String := (f.PK, f.SK)

/- ----------------------------------------------------------------------
Concrete fixtures used by counterexamples and witnesses.
---------------------------------------------------------------------- -/

/-- The total number of items the store reported unprocessed across the
issued chunks of a batch insert. -/
def totalUnprocessed (items : List Item) (send : Nat → Except String OpResult) : Nat :=
  ((chunksOf25 items).enum.map (fun p =>
    match send p.1 with
    | .ok r => ((r.UnprocessedItems.getD []).map (fun q => q.2.length)).sum
    | .error _ => 0)).sum

/-- A 25-item batch (one chunk). -/
def c1Items : List Item :=
  List.replicate 25 { PK := "P", SK := "S" }

/-- A store behaviour that reports exactly one write request of the chunk
unprocessed. -/
def c1Send : Nat → Except String OpResult := fun _ =>
  .ok { UnprocessedItems := some [("single-table", [{ PK := "P", SK := "S" }])] }

/-- An order item of user `user-00002`, stored under a different
partition than `USER#user-00001`. -/
def strayOrder : Item :=
  { PK := "USER#user-00002", SK := "ORDER#2024-01-05#x", entityType := some "ORDER" }

/-- The scenario user item `USER#user-00001`. -/
def c6User : Item :=
  { PK := "USER#user-00001", SK := "USER#user-00001", entityType := some "USER" }

/-- The first scenario order. -/
def c6Order1 : Item :=
  { PK := "USER#user-00001", SK := "ORDER#2024-01-01#a", entityType := some "ORDER" }

/-- The second scenario order. -/
def c6Order2 : Item :=
  { PK := "USER#user-00001", SK := "ORDER#2024-01-02#b", entityType := some "ORDER" }

/-- The third scenario order. -/
def c6Order3 : Item :=
  { PK := "USER#user-00001", SK := "ORDER#2024-01-03#c", entityType := some "ORDER" }

/-- A shard response with one item, a count and 2 capacity units. -/
def c7ShardResult : OpResult :=
  { Items := some [{ PK := "ORDERS", SK := "ORDER#1" }]
    Count := some 1
    ScannedCount := some 1
    ConsumedCapacity := some { CapacityUnits := some 2 } }

/-- A store behaviour answering every shard query successfully. -/
def c7SendOk : QueryRequest → Except String OpResult := fun _ => .ok c7ShardResult

/-- A store behaviour that throttles the shard-7 query and answers every
other shard successfully. -/
def c7SendBad : QueryRequest → Except String OpResult := fun req =>
  if lookupVal req.ExpressionAttributeValues ":entityType" == some "ORDER#7" then
    .error "throttled"
  else
    .ok c7ShardResult

/-- A constant timestamp oracle: every `Math.random()` draw produced the
same millisecond, so every generated `createdAt` coincides. -/
def c8ts : Nat → String := fun _ => "2024-03-04T05:06:07.000Z"

/-- One generated user under the constant-timestamp oracle. -/
def c8Users : List RelationalUser := generateRelationalUsers 1 c8ts

/-- Two posts generated for that user with identical timestamps: their
single-table keys collide. -/
def c8Posts : List SingleTablePost :=
  generateSingleTablePosts (generateRelationalPosts 2 c8Users c8ts (fun _ => 0))

/- ----------------------------------------------------------------------
Helper lemmas.
---------------------------------------------------------------------- -/
theorem charDigit_digitChar : ∀ d < 10, charDigit (digitChar d) = d := by decide

theorem charDigit_zero : charDigit '0' = 0 := by decide

theorem natCharsAux_eq_digits :
    ∀ fuel n, n ≤ fuel → natCharsAux fuel n = ((Nat.digits 10 n).map digitChar).reverse := by
  intro fuel
  induction fuel with
  | zero =>
    intro n hn
    interval_cases n
    simp [natCharsAux]
  | succ f ih =>
    intro n hn
    match n with
    | 0 => simp [natCharsAux]
    | m + 1 =>
      have hdiv : (m + 1) / 10 ≤ f := by
        have h1 : (m + 1) / 10 < m + 1 := Nat.div_lt_self (Nat.succ_pos m) (by omega)
        omega
      rw [natCharsAux, ih _ hdiv,
        Nat.digits_def' (b := 10) (by omega) (Nat.succ_pos m)]
      simp

theorem natChars_eq_digits (n : Nat) (hn : n ≠ 0) :
    natChars n = ((Nat.digits 10 n).map digitChar).reverse := by
  rw [natChars, if_neg hn, natCharsAux_eq_digits n n le_rfl]

theorem ofDigits_replicate_zero (b k : Nat) :
    Nat.ofDigits b (List.replicate k 0) = 0 := by
  induction k with
  | zero => simp [Nat.ofDigits]
  | succ m ih => simp [List.replicate_succ, Nat.ofDigits_cons, ih]

theorem decode_pad_natChars (n len : Nat) :
    decodeChars (padStart (natToString n) len '0').data = n := by
  have hmain : ∀ k : Nat,
      Nat.ofDigits 10 (((natChars n).map charDigit).reverse ++ List.replicate k 0) = n := by
    intro k
    by_cases hn : n = 0
    · subst hn
      have : ((natChars 0).map charDigit).reverse = [0] := by
        simp [natChars, charDigit_zero]
      rw [this]
      have : (0 :: List.replicate k 0 : List Nat) = List.replicate (k + 1) 0 := by
        simp [List.replicate_succ]
      simp only [List.cons_append, List.nil_append]
      rw [show (0 :: List.replicate k 0 : List Nat) = List.replicate (k + 1) 0 from this]
      exact ofDigits_replicate_zero 10 (k + 1)
    · rw [natChars_eq_digits n hn]
      have hdig : (((Nat.digits 10 n).map digitChar).reverse.map charDigit).reverse
          = Nat.digits 10 n := by
        rw [List.map_reverse, List.reverse_reverse, List.map_map]
        refine List.map_congr_left ?_ |>.trans (List.map_id _)
        intro d hd
        exact charDigit_digitChar d (Nat.digits_lt_base (by omega) hd)
      rw [hdig, Nat.ofDigits_append, Nat.ofDigits_digits, ofDigits_replicate_zero]
      ring
  unfold decodeChars padStart natToString
  simp only [List.map_append, List.map_replicate, List.reverse_append,
    List.reverse_replicate, charDigit_zero]
  exact hmain _

theorem pad_natToString_injective (len : Nat) :
    Function.Injective (fun n => padStart (natToString n) len '0') := by
  intro a b h
  have ha := decode_pad_natChars a len
  have hb := decode_pad_natChars b len
  simp only at h
  rw [h] at ha
  omega



theorem str_append_left_cancel {p a b : String} (h : p ++ a = p ++ b) : a = b := by
  cases p with
  | mk pd =>
    cases a with
    | mk ad =>
      cases b with
      | mk bd =>
        have hd : pd ++ ad = pd ++ bd := congrArg String.data h
        exact congrArg String.mk (List.append_cancel_left hd)

theorem evalKeyCond_getAllUsers (tn : String) (it : Item) :
    evalKeyCond (getAllUsersRequest tn) it = (it.entityType == some "USER") := rfl

theorem evalKeyCond_getAllPosts (tn : String) (it : Item) :
    evalKeyCond (getAllPostsRequest tn) it = (it.entityType == some "POST") := rfl

theorem evalKeyCond_getAllOrders (tn : String) (it : Item) :
    evalKeyCond (getAllOrdersRequest tn) it
      = (it.PK == "USER#user-00001" && strBeginsWith "ORDER#" it.SK) := rfl

theorem evalKeyCond_getUserOrders (tn u : String) (it : Item) :
    evalKeyCond (getUserOrdersRequest tn u) it
      = (it.PK == "USER#" ++ u && strBeginsWith "ORDER#" it.SK) := rfl

theorem screenData_foldl (items : List Item) (acc : ScreenData) :
    items.foldl screenDataStep acc =
      { posts := acc.posts ++ items.filter (fun it => it.entityType == some "POST")
        comments := acc.comments ++ items.filter (fun it => it.entityType == some "COMMENT")
        followers := acc.followers ++ items.filter (fun it => it.entityType == some "FOLLOWER")
        likes := acc.likes ++ items.filter (fun it => it.entityType == some "LIKE") } := by
  induction items generalizing acc with
  | nil => simp
  | cons a l ih =>
    rw [List.foldl_cons, ih]
    unfold screenDataStep
    split_ifs with h1 h2 h3 h4 <;>
      simp_all [List.filter_cons, List.append_assoc]

/-- C5: any failure thrown by the wrapped store operation is caught and
reported as a failed measurement carrying the measured duration and the
error's message, for both `measureOperation` flavours; the success flag
is true exactly when the operation resolved, so an exception never
reaches the caller. -/
theorem measureOperation_failure_semantics :
    (∀ (name design : String) (itemCount duration : Nat) (msg : String),
      measureOperation (.error msg) name design itemCount duration =
        { operation := name, design := design, duration := duration,
          consumedCapacity := none, itemCount := 0, success := false,
          error := some msg }) ∧
    (∀ (op : Except String OpResult) (name design : String) (itemCount duration : Nat),
      ((measureOperation op name design itemCount duration).success = true ↔
        ∃ r, op = .ok r)) ∧
    (∀ (tn dsg opTy : String) (itemCount duration : Nat) (msg : String),
      measureOperationT (.error msg) tn dsg opTy itemCount duration =
        { testName := tn, design := dsg, operation := opTy, duration := duration,
          itemCount := itemCount, recordCount := 0, success := false,
          error := some msg }) := by
  refine ⟨fun _ _ _ _ _ => rfl, ?_, fun _ _ _ _ _ _ => rfl⟩
  intro op name design itemCount duration
  cases op with
  | ok r => simp [measureOperation]
  | error msg => simp [measureOperation]

/-- C9: whenever `batchWriteWithChunking` itself completes, the returned
`TestResult` reports success and the full input length as item count,
regardless of how many chunks threw or reported unprocessed items: the
store behaviour `send` is arbitrary and does not occur in the surfaced
success flag or item count. -/
theorem batchWrite_reports_success_and_full_count
    (items : List Item) (send : Nat → Except String OpResult)
    (operationName design : String) (duration : Nat) :
    (batchWriteWithChunking items send operationName design duration).success = true ∧
    (batchWriteWithChunking items send operationName design duration).itemCount
      = items.length := by
  exact ⟨rfl, rfl⟩

/-- C2 counterexample: the dynamo-tests `BaseDAO` constructor does impose
a retry policy of its own — it passes `maxAttempts: 3` to the client, so
an underlying store request of its logical calls may be issued up to
three times, refuting "each underlying store request is issued at most
once, with only the client's default behaviour". -/
theorem client_retry_config_cex :
    (dynamoTestsClientConfig "us-east-1").maxAttempts = some 3 ∧
    (dynamoTestsClientConfig "us-east-1").maxAttempts ≠ none := by
  exact ⟨rfl, by simp [dynamoTestsClientConfig]⟩

/-- C2 amended: the DAO code contains no application-level retry loop —
each logical read issues a fixed request list (one query for the screen
data operations, the fixed 20-query fan-out for the sharded scan) that
does not depend on any store response — but the dynamo-tests `BaseDAO`
explicitly configures its client with `maxAttempts = 3`, while the
dynamo-queries `BaseDAO` passes no retry configuration. -/
theorem no_application_level_retries
    (region tableName userId startDate endDate : String) :
    (dynamoQueriesClientConfig region).maxAttempts = none ∧
    (dynamoTestsClientConfig region).maxAttempts = some 3 ∧
    (getUserScreenDataRequests tableName userId).length = 1 ∧
    (getUserScreenDataRequestsQueries tableName userId).length = 1 ∧
    (parallelShardRequests tableName startDate endDate).length = 20 := by
  refine ⟨rfl, rfl, rfl, rfl, ?_⟩
  simp [parallelShardRequests]

/-- C4 counterexample: the dynamo-queries `getUserScreenData` issues its
single query with partition-key value equal to the raw user id, not
`USER#` + id, for the concrete user `user-00001`. -/
theorem screenData_pk_composition_cex :
    lookupVal (getUserScreenDataRequestQueries "single-table"
        "user-00001").ExpressionAttributeValues ":pk"
      = some "user-00001" ∧
    some "user-00001" ≠ some ("USER#" ++ "user-00001") := by
  exact ⟨rfl, by decide⟩

/-- C4 amended: the dynamo-tests `getUserScreenData` issues exactly one
partition-key query, with partition key `USER#` + userId, and its
client-side switch partitions the returned items by `entityType` into
exactly the posts, comments, followers and likes of the result set; the
dynamo-queries copy also issues exactly one query, but keyed by the raw
user id, and performs no client-side partitioning. -/
theorem getUserScreenData_query_and_partition
    (tableName userId : String) (items : List Item) :
    (getUserScreenDataRequests tableName userId).length = 1 ∧
    lookupVal (getUserScreenDataRequest tableName userId).ExpressionAttributeValues ":pk"
      = some ("USER#" ++ userId) ∧
    (getUserScreenDataRequest tableName userId).KeyConditionExpression = "PK = :pk" ∧
    (partitionScreenItems items).posts
      = items.filter (fun it => it.entityType == some "POST") ∧
    (partitionScreenItems items).comments
      = items.filter (fun it => it.entityType == some "COMMENT") ∧
    (partitionScreenItems items).followers
      = items.filter (fun it => it.entityType == some "FOLLOWER") ∧
    (partitionScreenItems items).likes
      = items.filter (fun it => it.entityType == some "LIKE") ∧
    (getUserScreenDataRequestsQueries tableName userId).length = 1 ∧
    lookupVal (getUserScreenDataRequestQueries tableName userId).ExpressionAttributeValues ":pk"
      = some userId := by
  refine ⟨rfl, rfl, rfl, ?_, ?_, ?_, ?_, rfl, rfl⟩ <;>
    simp [partitionScreenItems, screenData_foldl]

/-- C3 counterexample: with a store holding one order item of user
`user-00002`, the dynamo-tests `getAllOrders` returns nothing, although
the set of stored items with entity-type tag `ORDER` is that item — the
operation does not return everything of the type regardless of parent. -/
theorem getAllOrders_type_query_cex :
    runQuery (getAllOrdersRequest "single-table") [strayOrder] = [] ∧
    [strayOrder].filter (fun it => it.entityType == some "ORDER") = [strayOrder] := by
  exact ⟨by decide, by decide⟩

/-- C3 amended: `getAllUsers` and `getAllPosts` return exactly the stored
items whose entity-type tag is `USER` resp. `POST`, regardless of
partition; the dynamo-tests `getAllOrders`, however, returns exactly the
items of the partition `USER#user-00001` with sort-key prefix `ORDER#`
(user-00001's orders), not everything tagged `ORDER`. -/
theorem get_everything_of_type_queries
    (tableName : String) (table : List Item) (it : Item) :
    (it ∈ runQuery (getAllUsersRequest tableName) table ↔
      it ∈ table ∧ it.entityType = some "USER") ∧
    (it ∈ runQuery (getAllPostsRequest tableName) table ↔
      it ∈ table ∧ it.entityType = some "POST") ∧
    (it ∈ runQuery (getAllOrdersRequest tableName) table ↔
      it ∈ table ∧ it.PK = "USER#user-00001" ∧ strBeginsWith "ORDER#" it.SK = true) := by
  refine ⟨?_, ?_, ?_⟩ <;>
    simp [runQuery, List.mem_filter, evalKeyCond_getAllUsers, evalKeyCond_getAllPosts,
      evalKeyCond_getAllOrders, Bool.and_eq_true, and_assoc]

/-- C6: with the scenario store — the user item and the three orders of
`user-00001`, plus arbitrary further items not under partition
`USER#user-00001` with sort-key prefix `ORDER#` — `getUserOrders` returns
exactly the three order items and nothing else. -/
theorem getUserOrders_scenario (tableName : String) (rest : List Item)
    (hrest : ∀ it ∈ rest, ¬(it.PK = "USER#user-00001" ∧ strBeginsWith "ORDER#" it.SK = true)) :
    runQuery (getUserOrdersRequest tableName "user-00001")
        ([c6User, c6Order1, c6Order2, c6Order3] ++ rest)
      = [c6Order1, c6Order2, c6Order3] := by
  unfold runQuery
  have hfun : evalKeyCond (getUserOrdersRequest tableName "user-00001")
      = fun it => it.PK == "USER#user-00001" && strBeginsWith "ORDER#" it.SK := by
    funext it
    exact evalKeyCond_getUserOrders tableName "user-00001" it
  rw [hfun, List.filter_append]
  have h1 : List.filter (fun it => it.PK == "USER#user-00001" && strBeginsWith "ORDER#" it.SK)
      [c6User, c6Order1, c6Order2, c6Order3] = [c6Order1, c6Order2, c6Order3] := by
    decide
  have h2 : List.filter (fun it => it.PK == "USER#user-00001" && strBeginsWith "ORDER#" it.SK)
      rest = [] := by
    rw [List.filter_eq_nil_iff]
    intro it hit
    have hno := hrest it hit
    by_cases hp : it.PK = "USER#user-00001"
    · by_cases hs : strBeginsWith "ORDER#" it.SK = true
      · exact absurd ⟨hp, hs⟩ hno
      · simp [hp, hs]
    · simp [hp]
  rw [h1, h2, List.append_nil]

/-- C6 witness: the scenario theorem evaluated with a concrete stray item
of another user in the store. -/
theorem getUserOrders_scenario_witness :
    runQuery (getUserOrdersRequest "single-table" "user-00001")
        ([c6User, c6Order1, c6Order2, c6Order3] ++ [strayOrder])
      = [c6Order1, c6Order2, c6Order3] :=
  getUserOrders_scenario "single-table" [strayOrder] (by decide)

theorem chunksOf25Aux_join :
    ∀ fuel (l : List Item), l.length ≤ fuel → (chunksOf25Aux fuel l).flatten = l := by
  intro fuel
  induction fuel with
  | zero =>
    intro l h
    cases l with
    | nil => rfl
    | cons a t => simp at h
  | succ f ih =>
    intro l h
    cases l with
    | nil => rfl
    | cons a t =>
      rw [chunksOf25Aux, List.flatten_cons,
        ih ((a :: t).drop 25)
          (by simp only [List.length_drop, List.length_cons] at h ⊢; omega)]
      exact List.take_append_drop 25 (a :: t)

theorem chunksOf25_join (items : List Item) : (chunksOf25 items).flatten = items :=
  chunksOf25Aux_join items.length items le_rfl

theorem batchChunkStep_counts (acc : BatchTotals) (batch : List Item)
    (res : Except String OpResult) :
    (batchChunkStep acc batch res).successfulCount + (batchChunkStep acc batch res).failedCount
      = acc.successfulCount + acc.failedCount + batch.length := by
  cases res with
  | ok r =>
    unfold batchChunkStep
    dsimp only
    split_ifs <;> dsimp only <;> omega
  | error e =>
    unfold batchChunkStep
    dsimp only
    omega

theorem batch_fold_counts (send : Nat → Except String OpResult) :
    ∀ (chunks : List (Nat × List Item)) (acc : BatchTotals),
      (chunks.foldl (fun acc p => batchChunkStep acc p.2 (send p.1)) acc).successfulCount
        + (chunks.foldl (fun acc p => batchChunkStep acc p.2 (send p.1)) acc).failedCount
      = acc.successfulCount + acc.failedCount + (chunks.map (fun p => p.2.length)).sum := by
  intro chunks
  induction chunks with
  | nil => intro acc; simp
  | cons c cs ih =>
    intro acc
    rw [List.foldl_cons, ih, batchChunkStep_counts]
    simp
    omega

/-- C1 counterexample: a batch insert of 25 items whose single chunk
comes back with exactly one write request unprocessed (K = 1) yields an
internal successful count of 0 — the entire chunk is counted failed — so
the reported inserted count is not N − K = 24. -/
theorem batch_unprocessed_accounting_cex :
    c1Items.length = 25 ∧
    totalUnprocessed c1Items c1Send = 1 ∧
    (batchWriteTotals c1Items c1Send).successfulCount = 0 ∧
    ¬((batchWriteTotals c1Items c1Send).successfulCount
        = c1Items.length - totalUnprocessed c1Items c1Send) := by
  refine ⟨by decide, by decide, by decide, by decide⟩

/-- C1 amended: partial failures are accounted at chunk granularity — a
chunk that throws or reports any unprocessed items is counted failed in
full — so for a batch insert of N items the internal successful count
equals N − F, where F is the total size of the failed chunks (F equals
the unprocessed item count K only when the store's unprocessed reports
cover whole chunks); the counts always partition N. -/
theorem batch_count_chunk_accounting (items : List Item)
    (send : Nat → Except String OpResult) :
    (batchWriteTotals items send).successfulCount + (batchWriteTotals items send).failedCount
      = items.length ∧
    (batchWriteTotals items send).successfulCount
      = items.length - (batchWriteTotals items send).failedCount := by
  have h := batch_fold_counts send (chunksOf25 items).enum ⟨0, 0, 0⟩
  have henum : ((chunksOf25 items).enum.map (fun p => p.2.length)).sum
      = ((chunksOf25 items).map (fun l => l.length)).sum := by
    rw [show (fun p : Nat × List Item => p.2.length)
        = (fun l : List Item => l.length) ∘ Prod.snd from rfl,
      ← List.map_map, List.enum_map_snd]
  have hjoin : ((chunksOf25 items).map (fun l => l.length)).sum = items.length := by
    rw [← chunksOf25_join items, List.length_flatten, chunksOf25_join]
  unfold batchWriteTotals
  rw [henum, hjoin] at h
  simp at h
  omega

theorem collect_map_ok : ∀ rs : List OpResult,
    collectShardResults (rs.map Except.ok) = .ok rs := by
  intro rs
  induction rs with
  | nil => rfl
  | cons r t ih => simp [collectShardResults, ih, Except.map]

theorem collect_error_of_mem :
    ∀ l : List (Except String OpResult), (∃ e, Except.error e ∈ l) →
      ∃ e, collectShardResults l = .error e := by
  intro l
  induction l with
  | nil =>
    rintro ⟨e, he⟩
    simp at he
  | cons x t ih =>
    rintro ⟨e, he⟩
    cases x with
    | error e0 => exact ⟨e0, rfl⟩
    | ok r =>
      rcases List.mem_cons.mp he with h | h
      · simp at h
      · obtain ⟨e1, he1⟩ := ih ⟨e, h⟩
        refine ⟨e1, ?_⟩
        simp [collectShardResults, he1, Except.map]

theorem shardItems_flat_length (rs : List OpResult) :
    (rs.foldr (fun r acc => r.Items.getD [] ++ acc) []).length
      = (rs.map (fun r => (r.Items.getD []).length)).sum := by
  induction rs with
  | nil => rfl
  | cons r t ih => simp [List.foldr_cons, ih]

theorem shardCapacity_fold (rs : List OpResult) :
    ∀ init : Capacity,
      (rs.foldl shardCapacityStep init).CapacityUnits.getD 0
        = init.CapacityUnits.getD 0
          + (rs.map (fun r =>
              (r.ConsumedCapacity.map (fun c => c.CapacityUnits.getD 0)).getD 0)).sum := by
  induction rs with
  | nil =>
    intro init
    simp
  | cons r t ih =>
    intro init
    rw [List.foldl_cons, ih]
    cases hc : r.ConsumedCapacity with
    | none => simp [shardCapacityStep, hc]
    | some c =>
      simp [shardCapacityStep, hc]
      ring

/-- C7: the parallel date-range operation issues exactly the 20 shard
queries `GSI1PK = ORDER#1 … ORDER#20` on index GSI1; when every shard
resolves, the surfaced measurement is successful with item count the sum
of the per-shard item list lengths (the merged `Items` concatenation in
shard order) and consumed capacity the sum of the per-shard capacity
units; when any shard rejects, the whole call surfaces one failed
measurement carrying an error and no partial merge. -/
theorem parallel_shard_fanout_spec (tableName startDate endDate : String)
    (send : QueryRequest → Except String OpResult) (duration : Nat) :
    (parallelShardRequests tableName startDate endDate).length = 20 ∧
    (∀ i, i < 20 →
      (parallelShardRequests tableName startDate endDate).get? i
          = some (shardRequest tableName startDate endDate (natToString (i + 1))) ∧
      lookupVal (shardRequest tableName startDate endDate
          (natToString (i + 1))).ExpressionAttributeValues ":entityType"
        = some ("ORDER#" ++ natToString (i + 1)) ∧
      (shardRequest tableName startDate endDate (natToString (i + 1))).IndexName
        = some "GSI1") ∧
    (∀ rs : List OpResult,
      (parallelShardRequests tableName startDate endDate).map send = rs.map Except.ok →
      (getAllOrdersByDateRangeParallel tableName startDate endDate send duration).success
          = true ∧
      (getAllOrdersByDateRangeParallel tableName startDate endDate send duration).itemCount
          = (rs.map (fun r => (r.Items.getD []).length)).sum ∧
      (getAllOrdersByDateRangeParallel tableName startDate endDate send
              duration).consumedCapacity
          = some ((rs.map (fun r =>
              (r.ConsumedCapacity.map (fun c => c.CapacityUnits.getD 0)).getD 0)).sum)) ∧
    ((∃ e, Except.error e ∈ (parallelShardRequests tableName startDate endDate).map send) →
      (getAllOrdersByDateRangeParallel tableName startDate endDate send duration).success
          = false ∧
      (getAllOrdersByDateRangeParallel tableName startDate endDate send duration).itemCount
          = 0 ∧
      (getAllOrdersByDateRangeParallel tableName startDate endDate send duration).error
          ≠ none) := by
  refine ⟨by simp [parallelShardRequests], ?_, ?_, ?_⟩
  · intro i hi
    refine ⟨?_, rfl, rfl⟩
    rw [parallelShardRequests, List.get?_map, List.get?_range hi]
    rfl
  · intro rs h
    have hop : collectShardResults
        ((parallelShardRequests tableName startDate endDate).map send) = .ok rs := by
      rw [h]
      exact collect_map_ok rs
    have hres : getAllOrdersByDateRangeParallel tableName startDate endDate send duration
        = measureOperation (.ok (combineShardResults rs))
            "GetAllOrdersByDateRangeParallel" "SingleTable" 20 duration := by
      simp only [getAllOrdersByDateRangeParallel]
      rw [hop]
      rfl
    refine ⟨by rw [hres]; rfl, ?_, ?_⟩
    · rw [hres]
      show (rs.foldr (fun r acc => r.Items.getD [] ++ acc) []).length = _
      exact shardItems_flat_length rs
    · rw [hres]
      show some ((rs.foldl shardCapacityStep {}).CapacityUnits.getD 0) = _
      rw [shardCapacity_fold]
      norm_num
  · rintro ⟨e, hmem⟩
    obtain ⟨e1, he1⟩ := collect_error_of_mem _ ⟨e, hmem⟩
    have hres : getAllOrdersByDateRangeParallel tableName startDate endDate send duration
        = measureOperation (.error e1)
            "GetAllOrdersByDateRangeParallel" "SingleTable" 20 duration := by
      simp only [getAllOrdersByDateRangeParallel]
      rw [he1]
      rfl
    refine ⟨by rw [hres]; rfl, by rw [hres]; rfl, by rw [hres]; simp [measureOperation]⟩

/-- C7 witness: the fan-out theorem applied to a store answering every
shard with one item and 2 capacity units (success, 20 items, 40 units),
and to a store throttling shard 7 (one failed measurement). -/
theorem parallel_shard_fanout_witness :
    (getAllOrdersByDateRangeParallel "orders" "2024-01-01" "2024-12-31" c7SendOk 5).success
        = true ∧
    (getAllOrdersByDateRangeParallel "orders" "2024-01-01" "2024-12-31" c7SendOk 5).itemCount
        = 20 ∧
    (getAllOrdersByDateRangeParallel "orders" "2024-01-01" "2024-12-31"
        c7SendOk 5).consumedCapacity = some 40 ∧
    (getAllOrdersByDateRangeParallel "orders" "2024-01-01" "2024-12-31" c7SendBad 5).success
        = false := by
  obtain ⟨-, -, hok, -⟩ :=
    parallel_shard_fanout_spec "orders" "2024-01-01" "2024-12-31" c7SendOk 5
  obtain ⟨-, -, -, hbad⟩ :=
    parallel_shard_fanout_spec "orders" "2024-01-01" "2024-12-31" c7SendBad 5
  have h := hok (List.replicate 20 c7ShardResult) rfl
  have hreq : shardRequest "orders" "2024-01-01" "2024-12-31" "7"
      ∈ parallelShardRequests "orders" "2024-01-01" "2024-12-31" := by decide
  have hsend : c7SendBad (shardRequest "orders" "2024-01-01" "2024-12-31" "7")
      = .error "throttled" := rfl
  have h2 := hbad ⟨"throttled", List.mem_map.mpr ⟨_, hreq, hsend⟩⟩
  have hcount : ((List.replicate 20 c7ShardResult).map
      (fun r => (r.Items.getD []).length)).sum = 20 := by decide
  have hcap : ((List.replicate 20 c7ShardResult).map (fun r =>
      (r.ConsumedCapacity.map (fun c => c.CapacityUnits.getD 0)).getD 0)).sum = (40 : ℚ) := by
    simp [List.map_replicate, List.sum_replicate, c7ShardResult]
    norm_num
  refine ⟨h.1, ?_, ?_, h2.1⟩
  · rw [h.2.1, hcount]
  · rw [h.2.2, hcap]

theorem data_append (a b : String) : (a ++ b).data = a.data ++ b.data := by
  cases a
  cases b
  rfl

theorem userId_inj {a b : Nat}
    (h : "user-" ++ padStart (natToString a) 5 '0'
       = "user-" ++ padStart (natToString b) 5 '0') : a = b :=
  pad_natToString_injective 5 (str_append_left_cancel h)

/-- C10: `generateRelationalUsers(count)` produces exactly `count` users,
the k-th having id `user-` plus the 1-based index zero-padded to 5
digits, and these ids are pairwise distinct; `generateSingleTableUsers`
maps the k-th user to the item with `PK = SK = USER#` + id and entity
type `USER`, carrying the user's fields. -/
theorem generateUsers_ids_spec (count : Nat) (ts : Nat → String) (hc : 1 ≤ count) :
    (generateRelationalUsers count ts).length = count ∧
    (∀ k, k < count →
      ((generateRelationalUsers count ts).map (fun u => u.id)).get? k
        = some ("user-" ++ padStart (natToString (k + 1)) 5 '0')) ∧
    ((generateRelationalUsers count ts).map (fun u => u.id)).Nodup ∧
    (∀ k, k < count →
      (generateSingleTableUsers (generateRelationalUsers count ts)).get? k
        = some { PK := "USER#" ++ ("user-" ++ padStart (natToString (k + 1)) 5 '0')
                 SK := "USER#" ++ ("user-" ++ padStart (natToString (k + 1)) 5 '0')
                 entityType := "USER"
                 id := "user-" ++ padStart (natToString (k + 1)) 5 '0'
                 username := "user" ++ natToString (k + 1)
                 email := "user" ++ natToString (k + 1) ++ "@example.com"
                 createdAt := ts (k + 1) }) := by
  refine ⟨by simp [generateRelationalUsers], ?_, ?_, ?_⟩
  · intro k hk
    rw [generateRelationalUsers, List.map_map, List.get?_map, List.get?_range hk]
    rfl
  · rw [generateRelationalUsers, List.map_map]
    refine List.Nodup.map ?_ (List.nodup_range count)
    intro a b h
    have h2 := userId_inj h
    omega
  · intro k hk
    rw [generateSingleTableUsers, generateRelationalUsers, List.map_map,
      List.get?_map, List.get?_range hk]
    rfl

/-- C10 witness: three generated users with their three pairwise distinct
ids. -/
theorem generateUsers_ids_spec_witness :
    (generateRelationalUsers 3 natToString).length = 3 ∧
    ((generateRelationalUsers 3 natToString).map (fun u => u.id)).Nodup := by
  obtain ⟨h1, -, h3, -⟩ := generateUsers_ids_spec 3 natToString (by decide)
  exact ⟨h1, h3⟩

/-- C8 counterexample: with one generated user and two posts whose
random timestamps coincide, the two generated post items carry the same
(partition key, sort key) pair — generated keys are not pairwise
distinct for every dataset the generator can produce. -/
theorem generated_keys_collision_cex :
    c8Posts.length = 2 ∧
    ¬ (c8Posts.map postKey).Nodup ∧
    (c8Posts.map postKey).get? 0 = (c8Posts.map postKey).get? 1 := by
  refine ⟨by decide, by decide, by decide⟩

theorem head_data_append_lit {pre : String} (s : String) {c : Char}
    (hc : pre.data.head? = some c) : (pre ++ s).data.head? = some c := by
  cases pre with
  | mk pd =>
    cases s with
    | mk sd =>
      cases pd with
      | nil => simp at hc
      | cons x xs => exact hc

theorem head_tag_ne {k : String × String} {c1 c2 : Char}
    (h1 : k.2.data.head? = some c1) (h2 : k.2.data.head? = some c2)
    (hne : c1 ≠ c2) : False := by
  rw [h1] at h2
  exact hne (Option.some.inj h2)

/-- C8 amended: the generated users', posts', comments', followers' and
likes' (partition key, sort key) pairs are pairwise distinct provided the
randomly drawn `createdAt` timestamps within each child collection are
pairwise distinct; the user keys are distinct unconditionally.
(Uniqueness is not unconditional "by construction": with colliding
timestamps two same-type items of one user share a key, as the
counterexample shows.)  The follower clause quantifies over the
relational follower list itself, since only the pure single-table
projection — not the random pair-drawing loop — determines the keys. -/
theorem generated_keys_distinct
    (U P Cn Ln : Nat)
    (tsU tsP tsC tsL : Nat → String) (pickP pickC : Nat → Nat)
    (followers : List RelationalFollower)
    (hP : ∀ i, i ≤ P → ∀ j, j ≤ P → i ≠ j → tsP i ≠ tsP j)
    (hC : ∀ i, i ≤ Cn → ∀ j, j ≤ Cn → i ≠ j → tsC i ≠ tsC j)
    (hF : followers.Pairwise (fun a b => a.createdAt ≠ b.createdAt))
    (hL : ∀ i, i ≤ Ln → ∀ j, j ≤ Ln → i ≠ j → tsL i ≠ tsL j) :
    ((generateSingleTableUsers (generateRelationalUsers U tsU)).map userKey ++
     (generateSingleTablePosts (generateRelationalPosts P
        (generateRelationalUsers U tsU) tsP pickP)).map postKey ++
     (generateSingleTableComments (generateRelationalComments Cn
        (generateRelationalUsers U tsU)
        (generateRelationalPosts P (generateRelationalUsers U tsU) tsP pickP)
        tsC pickC)).map commentKey ++
     (generateSingleTableFollowers followers).map followerKey ++
     (generateSingleTableLikes (generateRelationalLikes Ln
        (generateRelationalUsers U tsU)
        (generateRelationalPosts P (generateRelationalUsers U tsU) tsP pickP)
        tsL)).map likeKey).Nodup := by
  have hheadA : ∀ key ∈ (generateSingleTableUsers (generateRelationalUsers U tsU)).map userKey,
      key.2.data.head? = some 'U' := by
    intro key hk
    obtain ⟨stu, hstu, rfl⟩ := List.mem_map.mp hk
    simp only [generateSingleTableUsers] at hstu
    obtain ⟨u, hu, rfl⟩ := List.mem_map.mp hstu
    exact head_data_append_lit u.id rfl
  have hheadB : ∀ key ∈ (generateSingleTablePosts (generateRelationalPosts P
      (generateRelationalUsers U tsU) tsP pickP)).map postKey,
      key.2.data.head? = some 'P' := by
    intro key hk
    obtain ⟨stp, hstp, rfl⟩ := List.mem_map.mp hk
    simp only [generateSingleTablePosts] at hstp
    obtain ⟨p, hp, rfl⟩ := List.mem_map.mp hstp
    exact head_data_append_lit p.createdAt rfl
  have hheadC : ∀ key ∈ (generateSingleTableComments (generateRelationalComments Cn
      (generateRelationalUsers U tsU)
      (generateRelationalPosts P (generateRelationalUsers U tsU) tsP pickP)
      tsC pickC)).map commentKey,
      key.2.data.head? = some 'C' := by
    intro key hk
    obtain ⟨stc, hstc, rfl⟩ := List.mem_map.mp hk
    simp only [generateSingleTableComments] at hstc
    obtain ⟨c, hc, rfl⟩ := List.mem_map.mp hstc
    exact head_data_append_lit c.createdAt rfl
  have hheadF : ∀ key ∈ (generateSingleTableFollowers followers).map followerKey,
      key.2.data.head? = some 'F' := by
    intro key hk
    obtain ⟨stf, hstf, rfl⟩ := List.mem_map.mp hk
    simp only [generateSingleTableFollowers] at hstf
    obtain ⟨f, hf, rfl⟩ := List.mem_map.mp hstf
    exact head_data_append_lit f.createdAt rfl
  have hheadD : ∀ key ∈ (generateSingleTableLikes (generateRelationalLikes Ln
      (generateRelationalUsers U tsU)
      (generateRelationalPosts P (generateRelationalUsers U tsU) tsP pickP)
      tsL)).map likeKey,
      key.2.data.head? = some 'L' := by
    intro key hk
    obtain ⟨stl, hstl, rfl⟩ := List.mem_map.mp hk
    simp only [generateSingleTableLikes] at hstl
    obtain ⟨l, hl, rfl⟩ := List.mem_map.mp hstl
    exact head_data_append_lit l.createdAt rfl
  have hA : ((generateSingleTableUsers (generateRelationalUsers U tsU)).map userKey).Nodup := by
    simp only [generateSingleTableUsers, generateRelationalUsers, List.map_map]
    refine List.Nodup.map_on ?_ (List.nodup_range U)
    intro a ha b hb h
    have h2 : ("USER" ++ "#" ++ ("user-" ++ padStart (natToString (a + 1)) 5 '0') : String)
        = "USER" ++ "#" ++ ("user-" ++ padStart (natToString (b + 1)) 5 '0') :=
      congrArg (fun p => p.2) h
    have h3 := userId_inj (str_append_left_cancel h2)
    omega
  have hB : ((generateSingleTablePosts (generateRelationalPosts P
      (generateRelationalUsers U tsU) tsP pickP)).map postKey).Nodup := by
    simp only [generateSingleTablePosts, generateRelationalPosts, List.map_map]
    refine List.Nodup.map_on ?_ (List.nodup_range P)
    intro a ha b hb h
    have h2 : ("POST" ++ "#" ++ tsP (a + 1) : String)
        = "POST" ++ "#" ++ tsP (b + 1) :=
      congrArg (fun p => p.2) h
    have h3 := str_append_left_cancel h2
    by_contra hne
    exact hP (a + 1) (by simp at ha; omega) (b + 1) (by simp at hb; omega) (by omega) h3
  have hCn : ((generateSingleTableComments (generateRelationalComments Cn
      (generateRelationalUsers U tsU)
      (generateRelationalPosts P (generateRelationalUsers U tsU) tsP pickP)
      tsC pickC)).map commentKey).Nodup := by
    simp only [generateSingleTableComments, generateRelationalComments, List.map_map]
    refine List.Nodup.map_on ?_ (List.nodup_range Cn)
    intro a ha b hb h
    have h2 : ("COMMENT" ++ "#" ++ tsC (a + 1) : String)
        = "COMMENT" ++ "#" ++ tsC (b + 1) :=
      congrArg (fun p => p.2) h
    have h3 := str_append_left_cancel h2
    by_contra hne
    exact hC (a + 1) (by simp at ha; omega) (b + 1) (by simp at hb; omega) (by omega) h3
  have hFn : ((generateSingleTableFollowers followers).map followerKey).Nodup := by
    simp only [generateSingleTableFollowers, List.map_map]
    refine List.Pairwise.map _ ?_ hF
    intro a b hne heq
    apply hne
    have h2 : ("FOLLOWER" ++ "#" ++ a.createdAt : String)
        = "FOLLOWER" ++ "#" ++ b.createdAt :=
      congrArg (fun p => p.2) heq
    exact str_append_left_cancel h2
  have hD : ((generateSingleTableLikes (generateRelationalLikes Ln
      (generateRelationalUsers U tsU)
      (generateRelationalPosts P (generateRelationalUsers U tsU) tsP pickP)
      tsL)).map likeKey).Nodup := by
    simp only [generateSingleTableLikes, generateRelationalLikes, List.map_map]
    refine List.Nodup.map_on ?_ (List.nodup_range Ln)
    intro a ha b hb h
    have h2 : ("LIKE" ++ "#" ++ tsL (a + 1) : String)
        = "LIKE" ++ "#" ++ tsL (b + 1) :=
      congrArg (fun p => p.2) h
    have h3 := str_append_left_cancel h2
    by_contra hne
    exact hL (a + 1) (by simp at ha; omega) (b + 1) (by simp at hb; omega) (by omega) h3
  rw [List.append_assoc, List.append_assoc, List.append_assoc, List.nodup_append,
    List.nodup_append, List.nodup_append, List.nodup_append]
  refine ⟨hA, ⟨hB, ⟨hCn, ⟨hFn, hD, ?_⟩, ?_⟩, ?_⟩, ?_⟩
  · intro key hk1 hk2
    exact head_tag_ne (hheadF key hk1) (hheadD key hk2) (by decide)
  · intro key hk1 hk2
    rcases List.mem_append.mp hk2 with h | h
    · exact head_tag_ne (hheadC key hk1) (hheadF key h) (by decide)
    · exact head_tag_ne (hheadC key hk1) (hheadD key h) (by decide)
  · intro key hk1 hk2
    rcases List.mem_append.mp hk2 with h | h
    · exact head_tag_ne (hheadB key hk1) (hheadC key h) (by decide)
    rcases List.mem_append.mp h with h2 | h2
    · exact head_tag_ne (hheadB key hk1) (hheadF key h2) (by decide)
    · exact head_tag_ne (hheadB key hk1) (hheadD key h2) (by decide)
  · intro key hk1 hk2
    rcases List.mem_append.mp hk2 with h | h
    · exact head_tag_ne (hheadA key hk1) (hheadB key h) (by decide)
    rcases List.mem_append.mp h with h2 | h2
    · exact head_tag_ne (hheadA key hk1) (hheadC key h2) (by decide)
    rcases List.mem_append.mp h2 with h3 | h3
    · exact head_tag_ne (hheadA key hk1) (hheadF key h3) (by decide)
    · exact head_tag_ne (hheadA key hk1) (hheadD key h3) (by decide)

/-- C8 witness: the distinctness theorem evaluated at one user, two
posts, one comment, two followers and one like whose oracle timestamps
are distinct decimal strings resp. distinct date literals. -/
theorem generated_keys_distinct_witness :
    ((generateSingleTableUsers (generateRelationalUsers 1 natToString)).map userKey ++
     (generateSingleTablePosts (generateRelationalPosts 2
        (generateRelationalUsers 1 natToString) natToString (fun _ => 0))).map postKey ++
     (generateSingleTableComments (generateRelationalComments 1
        (generateRelationalUsers 1 natToString)
        (generateRelationalPosts 2 (generateRelationalUsers 1 natToString)
          natToString (fun _ => 0))
        natToString (fun _ => 0))).map commentKey ++
     (generateSingleTableFollowers
        [{ followId := "follow-00000001", id := "follow-00000001",
           followerId := "user-00002", followingId := "user-00001",
           createdAt := "2024-01-01T00:00:00.000Z" },
         { followId := "follow-00000002", id := "follow-00000002",
           followerId := "user-00003", followingId := "user-00001",
           createdAt := "2024-01-02T00:00:00.000Z" }]).map followerKey ++
     (generateSingleTableLikes (generateRelationalLikes 1
        (generateRelationalUsers 1 natToString)
        (generateRelationalPosts 2 (generateRelationalUsers 1 natToString)
          natToString (fun _ => 0))
        natToString)).map likeKey).Nodup :=
  generated_keys_distinct 1 2 1 1 natToString natToString natToString natToString
    (fun _ => 0) (fun _ => 0)
    [{ followId := "follow-00000001", id := "follow-00000001",
       followerId := "user-00002", followingId := "user-00001",
       createdAt := "2024-01-01T00:00:00.000Z" },
     { followId := "follow-00000002", id := "follow-00000002",
       followerId := "user-00003", followingId := "user-00001",
       createdAt := "2024-01-02T00:00:00.000Z" }]
    (by decide) (by decide) (by decide) (by decide)
